import Mathlib

/-!
Verification of the Proyecto Phoenix trading core: a shallow embedding of
the indicator pipeline (`core/analysis_engine.py`) and the stateful signal
transition detector (`core/trading_signals.py`), with numeric candle fields
modelled as rationals.
-/

/-- One enriched candle as read by `TradingSignalsEngine`: the raw fields
`close` and `volume` plus the indicator columns the detector consumes.
Validation has already guaranteed these cells are non-null, so they are
plain rationals here. -/
structure Candle where
  close : ℚ
  volume : ℚ
  ema21 : ℚ
  rsi14 : ℚ
  macdHist : ℚ
  volAvg20 : ℚ

/-- The four-entry bullish condition mapping built by
`TradingSignalsEngine._check_bullish_signal` (same keys as the Python dict). -/
structure BullishConds where
  price_above_ema : Bool
  rsi_in_range : Bool
  macd_histogram_positive : Bool
  volume_above_average : Bool

/-- The four-entry bearish condition mapping built by
`TradingSignalsEngine._check_bearish_signal`. -/
structure BearishConds where
  price_below_ema : Bool
  rsi_in_range : Bool
  macd_histogram_negative : Bool
  volume_above_average : Bool

/-- Bullish condition dict for one candle (`trading_signals.py` lines 158-163
and 166-171; the same expression is evaluated on the current and the
previous candle). -/
def bullishConditions (c : Candle) : BullishConds where
  price_above_ema := decide (c.close > c.ema21)
  rsi_in_range := decide (30 ≤ c.rsi14 ∧ c.rsi14 ≤ 50)
  macd_histogram_positive := decide (c.macdHist > 0)
  volume_above_average := decide (c.volume > c.volAvg20)

/-- Bearish condition dict for one candle (`trading_signals.py` lines 244-249
and 252-257). -/
def bearishConditions (c : Candle) : BearishConds where
  price_below_ema := decide (c.close < c.ema21)
  rsi_in_range := decide (50 ≤ c.rsi14 ∧ c.rsi14 ≤ 70)
  macd_histogram_negative := decide (c.macdHist < 0)
  volume_above_average := decide (c.volume > c.volAvg20)

/-- `all(current_bullish_conditions.values())`. -/
def BullishConds.all (b : BullishConds) : Bool :=
  b.price_above_ema && b.rsi_in_range && b.macd_histogram_positive &&
    b.volume_above_average

/-- `all(current_bearish_conditions.values())`. -/
def BearishConds.all (b : BearishConds) : Bool :=
  b.price_below_ema && b.rsi_in_range && b.macd_histogram_negative &&
    b.volume_above_average

/-- All four bullish conditions hold at a candle. -/
def bullishAll (c : Candle) : Bool := (bullishConditions c).all

/-- All four bearish conditions hold at a candle. -/
def bearishAll (c : Candle) : Bool := (bearishConditions c).all

/-- `_check_bullish_signal` detection outcome (lines 173-180): all current
conditions met AND not all previous conditions met. -/
def checkBullishSignal (previous current : Candle) : Bool :=
  (bullishConditions current).all && !(bullishConditions previous).all

/-- `_check_bearish_signal` detection outcome (lines 259-266). -/
def checkBearishSignal (previous current : Candle) : Bool :=
  (bearishConditions current).all && !(bearishConditions previous).all

/-- The `SignalType` enum of `trading_signals.py`. -/
inductive SignalType where
  | BULLISH_SIGNAL
  | BEARISH_SIGNAL
  | NO_SIGNAL
deriving DecidableEq

/-- `_determine_final_signal` (lines 304-324); the second component records
whether the conflict warning branch was taken. -/
def determineFinalSignal (bullish bearish : Bool) : SignalType × Bool :=
  if bullish && bearish then (SignalType.NO_SIGNAL, true)
  else if bullish then (SignalType.BULLISH_SIGNAL, false)
  else if bearish then (SignalType.BEARISH_SIGNAL, false)
  else (SignalType.NO_SIGNAL, false)

/-- Spec-side reading of the bullish condition set, as stated in §4.2 of the
specification. -/
def bullishHolds (c : Candle) : Prop :=
  c.close > c.ema21 ∧ (30 ≤ c.rsi14 ∧ c.rsi14 ≤ 50) ∧ c.macdHist > 0 ∧
    c.volume > c.volAvg20

/-- Spec-side reading of the bearish condition set. -/
def bearishHolds (c : Candle) : Prop :=
  c.close < c.ema21 ∧ (50 ≤ c.rsi14 ∧ c.rsi14 ≤ 70) ∧ c.macdHist < 0 ∧
    c.volume > c.volAvg20

lemma bullishAll_eq_true_iff (c : Candle) : bullishAll c = true ↔ bullishHolds c := by
  simp [bullishAll, bullishConditions, BullishConds.all, bullishHolds,
    Bool.and_eq_true, decide_eq_true_eq, and_assoc]

lemma bearishAll_eq_true_iff (c : Candle) : bearishAll c = true ↔ bearishHolds c := by
  simp [bearishAll, bearishConditions, BearishConds.all, bearishHolds,
    Bool.and_eq_true, decide_eq_true_eq, and_assoc]

lemma bullishAll_eq_false_iff (c : Candle) : bullishAll c = false ↔ ¬ bullishHolds c := by
  rw [← bullishAll_eq_true_iff]
  cases h : bullishAll c <;> simp

lemma bearishAll_eq_false_iff (c : Candle) : bearishAll c = false ↔ ¬ bearishHolds c := by
  rw [← bearishAll_eq_true_iff]
  cases h : bearishAll c <;> simp

/-- C1: a bullish signal fires at the current candle iff all four bullish
conditions hold there and not all four held at the previous candle, and the
same law with the bearish condition set governs bearish signals.  (In
particular, when the conditions hold at both candles no event fires, since
the second conjunct fails.) -/
theorem transition_law_iff (previous current : Candle) :
    (checkBullishSignal previous current = true ↔
      (bullishHolds current ∧ ¬ bullishHolds previous)) ∧
    (checkBearishSignal previous current = true ↔
      (bearishHolds current ∧ ¬ bearishHolds previous)) := by
  constructor
  · rw [checkBullishSignal, Bool.and_eq_true, Bool.not_eq_true']
    rw [show (bullishConditions current).all = bullishAll current from rfl]
    rw [show (bullishConditions previous).all = bullishAll previous from rfl]
    rw [bullishAll_eq_true_iff, bullishAll_eq_false_iff]
  · rw [checkBearishSignal, Bool.and_eq_true, Bool.not_eq_true']
    rw [show (bearishConditions current).all = bearishAll current from rfl]
    rw [show (bearishConditions previous).all = bearishAll previous from rfl]
    rw [bearishAll_eq_true_iff, bearishAll_eq_false_iff]

/-- C2: on a series where the full bullish condition set is false at candle 9
and true at candles 10 through 15, the advancing two-candle analysis fires a
bullish event at candle 10 and at none of candles 11 through 15. -/
theorem single_fire_on_plateau (s : ℕ → Candle)
    (h9 : bullishAll (s 9) = false)
    (h10 : bullishAll (s 10) = true) (h11 : bullishAll (s 11) = true)
    (h12 : bullishAll (s 12) = true) (h13 : bullishAll (s 13) = true)
    (h14 : bullishAll (s 14) = true) (h15 : bullishAll (s 15) = true) :
    checkBullishSignal (s 9) (s 10) = true ∧
    checkBullishSignal (s 10) (s 11) = false ∧
    checkBullishSignal (s 11) (s 12) = false ∧
    checkBullishSignal (s 12) (s 13) = false ∧
    checkBullishSignal (s 13) (s 14) = false ∧
    checkBullishSignal (s 14) (s 15) = false := by
  have e : ∀ p c : Candle, checkBullishSignal p c = (bullishAll c && !bullishAll p) :=
    fun _ _ => rfl
  refine ⟨?_, ?_, ?_, ?_, ?_, ?_⟩ <;>
    simp [e, h9, h10, h11, h12, h13, h14, h15]

/-- A candle at which every bullish condition holds. -/
def candleBull : Candle :=
  { close := 2, volume := 3, ema21 := 1, rsi14 := 40, macdHist := 1, volAvg20 := 1 }

/-- A candle at which the bullish condition set fails (price below EMA,
RSI out of band, negative histogram, volume below average). -/
def candleFlat : Candle :=
  { close := 1, volume := 1, ema21 := 2, rsi14 := 60, macdHist := -1, volAvg20 := 3 }

/-- Series that is non-bullish before candle 10 and fully bullish from 10 on. -/
def plateauSeries (i : ℕ) : Candle := if i < 10 then candleFlat else candleBull

lemma bullishAll_candleBull : bullishAll candleBull = true := by
  norm_num [bullishAll, bullishConditions, BullishConds.all, candleBull]

lemma bullishAll_candleFlat : bullishAll candleFlat = false := by
  norm_num [bullishAll, bullishConditions, BullishConds.all, candleFlat]

theorem single_fire_on_plateau_witness :
    bullishAll (plateauSeries 9) = false ∧
    bullishAll (plateauSeries 10) = true ∧
    bullishAll (plateauSeries 15) = true ∧
    (checkBullishSignal (plateauSeries 9) (plateauSeries 10) = true ∧
     checkBullishSignal (plateauSeries 10) (plateauSeries 11) = false ∧
     checkBullishSignal (plateauSeries 11) (plateauSeries 12) = false ∧
     checkBullishSignal (plateauSeries 12) (plateauSeries 13) = false ∧
     checkBullishSignal (plateauSeries 13) (plateauSeries 14) = false ∧
     checkBullishSignal (plateauSeries 14) (plateauSeries 15) = false) := by
  have hf : bullishAll (plateauSeries 9) = false := by
    simpa [plateauSeries] using bullishAll_candleFlat
  have hb : ∀ i : ℕ, 10 ≤ i → bullishAll (plateauSeries i) = true := by
    intro i hi
    have : ¬ i < 10 := by omega
    simpa [plateauSeries, this] using bullishAll_candleBull
  exact ⟨hf, hb 10 (by omega), hb 15 (by omega),
    single_fire_on_plateau plateauSeries hf (hb 10 (by omega)) (hb 11 (by omega))
      (hb 12 (by omega)) (hb 13 (by omega)) (hb 14 (by omega)) (hb 15 (by omega))⟩

/-- C5: when both polarities fire in the same cycle, `_determine_final_signal`
resolves to `NO_SIGNAL` and records the conflict diagnostic (its warning
branch), rather than returning either directional signal. -/
theorem conflict_resolves_to_no_signal :
    determineFinalSignal true true = (SignalType.NO_SIGNAL, true) := rfl

/-- C6: the boundary value `rsi = 50` satisfies the RSI clause of both
condition sets, and with every other bullish condition true at the current
candle and the previous candle not fully bullish, the bullish signal fires. -/
theorem rsi_boundary_fifty (previous current : Candle)
    (hrsi : current.rsi14 = 50)
    (hema : current.close > current.ema21)
    (hmacd : current.macdHist > 0)
    (hvol : current.volume > current.volAvg20)
    (hprev : bullishAll previous = false) :
    (bullishConditions current).rsi_in_range = true ∧
    (bearishConditions current).rsi_in_range = true ∧
    checkBullishSignal previous current = true := by
  refine ⟨?_, ?_, ?_⟩
  · simp [bullishConditions, hrsi]
    norm_num
  · simp [bearishConditions, hrsi]
    norm_num
  · have hcur : bullishAll current = true := by
      rw [bullishAll_eq_true_iff]
      exact ⟨hema, ⟨by rw [hrsi]; norm_num, by rw [hrsi]⟩, hmacd, hvol⟩
    show (bullishAll current && !bullishAll previous) = true
    rw [hcur, hprev]
    rfl

/-- Current candle for the boundary scenario: RSI exactly 50, every other
bullish condition true. -/
def candleBoundary : Candle :=
  { close := 2, volume := 3, ema21 := 1, rsi14 := 50, macdHist := 1, volAvg20 := 1 }

theorem rsi_boundary_fifty_witness :
    candleBoundary.rsi14 = 50 ∧
    candleBoundary.close > candleBoundary.ema21 ∧
    candleBoundary.macdHist > 0 ∧
    candleBoundary.volume > candleBoundary.volAvg20 ∧
    bullishAll candleFlat = false ∧
    ((bullishConditions candleBoundary).rsi_in_range = true ∧
     (bearishConditions candleBoundary).rsi_in_range = true ∧
     checkBullishSignal candleFlat candleBoundary = true) := by
  have h1 : candleBoundary.rsi14 = 50 := rfl
  have h2 : candleBoundary.close > candleBoundary.ema21 := by norm_num [candleBoundary]
  have h3 : candleBoundary.macdHist > 0 := by norm_num [candleBoundary]
  have h4 : candleBoundary.volume > candleBoundary.volAvg20 := by norm_num [candleBoundary]
  exact ⟨h1, h2, h3, h4, bullishAll_candleFlat,
    rsi_boundary_fifty candleFlat candleBoundary h1 h2 h3 h4 bullishAll_candleFlat⟩

lemma not_bullish_and_bearish (c : Candle) :
    bullishAll c = true → bearishAll c = true → False := by
  intro hb hr
  have h1 := (bullishAll_eq_true_iff c).mp hb
  have h2 := (bearishAll_eq_true_iff c).mp hr
  exact absurd h2.1 (not_lt_of_gt h1.1)

/-- C10: the full bullish and bearish condition sets are mutually exclusive at
any candle (close vs EMA points in opposite directions), so both signals never
fire in one cycle and the conflict branch of `_determine_final_signal` is
unreachable from `analyze_signals`. -/
theorem conflict_branch_unreachable (previous current : Candle) :
    (bullishAll current && bearishAll current) = false ∧
    (determineFinalSignal (checkBullishSignal previous current)
      (checkBearishSignal previous current)).2 = false := by
  constructor
  · cases hb : bullishAll current with
    | false => rfl
    | true =>
      cases hr : bearishAll current with
      | false => rfl
      | true => exact (not_bullish_and_bearish current hb hr).elim
  · have hkey : (checkBullishSignal previous current &&
        checkBearishSignal previous current) = false := by
      cases hb : checkBullishSignal previous current with
      | false => rfl
      | true =>
        cases hr : checkBearishSignal previous current with
        | false => rfl
        | true =>
          have hb1 : bullishAll current = true :=
            (Bool.and_eq_true _ _).mp hb |>.1
          have hr1 : bearishAll current = true :=
            (Bool.and_eq_true _ _).mp hr |>.1
          exact (not_bullish_and_bearish current hb1 hr1).elim
    rw [determineFinalSignal, hkey]
    cases checkBullishSignal previous current <;>
      cases checkBearishSignal previous current <;> simp

/-- Smoothing factor of the exponential moving average. -/
def alphaOf (period : ℕ) : ℚ := 2 / (period + 1)

/-- One step of the exponential recursion. -/
def emaStep (a prev c : ℚ) : ℚ := a * c + (1 - a) * prev

/-- Exponential recursion over the remaining inputs, threading the running
value. -/
def emaRec (a : ℚ) : ℚ → List ℚ → List ℚ
  | _, [] => []
  | prev, c :: cs => emaStep a prev c :: emaRec a (emaStep a prev c) cs

/-- Simple average of the first `period` inputs, the seed of every smoothing. -/
def seedOf (period : ℕ) (xs : List ℚ) : ℚ := (xs.take period).sum / (period : ℚ)

/-- Modelled from the spec: pandas-ta seeds its exponential smoothings with a
simple average of the first `period` inputs and recurses from there, leaving
the first `period - 1` outputs absent.  The pandas-ta sources are not part of
this repository, so the column semantics follow §4.1 of the specification. -/
def seededSmooth (a : ℚ) (period : ℕ) (xs : List ℚ) : List (Option ℚ) :=
  if xs.length < period ∨ period = 0 then xs.map fun _ => none
  else
    List.replicate (period - 1) none ++
      some (seedOf period xs) ::
        (emaRec a (seedOf period xs) (xs.drop period)).map some

/-- The EMA column added by `TechnicalAnalysisEngine._calculate_ema`. -/
def calcEMA (period : ℕ) (closes : List ℚ) : List (Option ℚ) :=
  seededSmooth (alphaOf period) period closes

/-- Modelled from the spec: the EMA recurrence of §4.1 stated directly per
index — absent below `period - 1`, the simple mean of the first `period`
closes at `period - 1`, and `ema[i] = alpha * close[i] + (1-alpha) * ema[i-1]`
afterwards.  This is the reference definition the computed column is compared
against. -/
def emaFromSpec (period : ℕ) (closes : List ℚ) : ℕ → Option ℚ
  | 0 =>
    if period = 1 ∧ 1 ≤ closes.length then some (seedOf period closes)
    else none
  | i + 1 =>
    if closes.length < period ∨ period = 0 then none
    else if i + 2 < period then none
    else if i + 2 = period then some (seedOf period closes)
    else (emaFromSpec period closes i).map fun prev =>
      emaStep (alphaOf period) prev (closes.getD (i + 1) 0)

/-- Successive differences of the close column (delta at position `k` is
`close[k+1] - close[k]`). -/
def diffs : List ℚ → List ℚ
  | [] => []
  | [_] => []
  | a :: b :: rest => (b - a) :: diffs (b :: rest)

/-- Modelled from the spec: Wilder RSI over close deltas — gains and losses
smoothed with `alpha = 1/period` (seeded like the other smoothings), and
`RSI = 100 * avgGain / (avgGain + avgLoss)`.  The leading `none` realigns the
delta positions with the candle positions.  The pandas-ta rsi source is not
part of this repository. -/
def calcRSI (period : ℕ) (closes : List ℚ) : List (Option ℚ) :=
  let d := diffs closes
  let g := seededSmooth (1 / (period : ℚ)) period (d.map fun x => max x 0)
  let l := seededSmooth (1 / (period : ℚ)) period (d.map fun x => max (-x) 0)
  none :: (g.zip l).map fun gl =>
    match gl with
    | (some ag, some al) => some (100 * ag / (ag + al))
    | _ => none

/-- Pointwise subtraction of two indicator cells, absent if either is. -/
def subOpt : Option ℚ → Option ℚ → Option ℚ
  | some a, some b => some (a - b)
  | _, _ => none

/-- Modelled from the spec: the MACD family of §4.1 — line = EMA(fast) -
EMA(slow), signal = EMA(signal) of the line (over the indices where the line
is defined), histogram = line - signal.  The pandas-ta macd source is not part
of this repository. -/
def calcMACD (fast slow sig : ℕ) (closes : List ℚ) :
    List (Option ℚ) × List (Option ℚ) × List (Option ℚ) :=
  let lineFull := (calcEMA fast closes).zipWith subOpt (calcEMA slow closes)
  let definedLine := (lineFull.drop (slow - 1)).map fun o => o.getD 0
  let sigFull := List.replicate (slow - 1) none ++ calcEMA sig definedLine
  (lineFull, sigFull, lineFull.zipWith subOpt sigFull)

/-- The rolling simple mean of `_calculate_volume_average`: mean of the
`period` trailing values, absent for the first `period - 1` positions. -/
def rollingMean (period : ℕ) (xs : List ℚ) : List (Option ℚ) :=
  (List.range xs.length).map fun i =>
    if i + 1 < period ∨ period = 0 then none
    else some (((xs.take (i + 1)).drop (i + 1 - period)).sum / (period : ℚ))

/-- The indicator periods read from `ConfigManager` by
`TechnicalAnalysisEngine.__init__`. -/
structure IndicatorParams where
  emaPeriod : ℕ
  rsiPeriod : ℕ
  macdFast : ℕ
  macdSlow : ℕ
  macdSig : ℕ
  volAvgPeriod : ℕ

/-- The configuration defaults of `config_manager.py` (21, 14, 12/26/9, 20). -/
def phoenixDefaults : IndicatorParams :=
  { emaPeriod := 21, rsiPeriod := 14, macdFast := 12, macdSlow := 26,
    macdSig := 9, volAvgPeriod := 20 }

/-- `max(ema_period, rsi_period, macd_slow + macd_signal, volume_avg_period)`
from `_validate_input_dataframe`. -/
def maxPeriodOf (p : IndicatorParams) : ℕ :=
  max (max p.emaPeriod p.rsiPeriod) (max (p.macdSlow + p.macdSig) p.volAvgPeriod)

/-- A pandas DataFrame as the two engines see it: a timestamp index (with a
flag recording whether its dtype is datetime), the raw OHLCV columns and the
indicator columns.  A column is a list of cells, a cell is `none` when the
stored value is NaN/null; a whole column is `none` when it is not present in
the frame. -/
structure Frame where
  indexIsDatetime : Bool
  index : List ℤ
  openCol : Option (List (Option ℚ)) := none
  highCol : Option (List (Option ℚ)) := none
  lowCol : Option (List (Option ℚ)) := none
  closeCol : Option (List (Option ℚ)) := none
  volumeCol : Option (List (Option ℚ)) := none
  ema21 : Option (List (Option ℚ)) := none
  rsi14 : Option (List (Option ℚ)) := none
  macdLine : Option (List (Option ℚ)) := none
  macdSignalCol : Option (List (Option ℚ)) := none
  macdHistCol : Option (List (Option ℚ)) := none
  volAvg20 : Option (List (Option ℚ)) := none

/-- The exceptions that can leave the two analysis entry points
(`utils/exceptions.py`); `analysisError` carries the chained cause
(`raise ... from e`), `none` when raised directly by validation. -/
inductive PhoenixErr where
  | analysisError (cause : Option PhoenixErr)
  | insufficientDataError

/-- All five raw OHLCV columns are present (`required_columns` check of
`TechnicalAnalysisEngine._validate_input_dataframe`). -/
def colAllPresent (f : Frame) : Bool :=
  f.openCol.isSome && f.highCol.isSome && f.lowCol.isSome &&
    f.closeCol.isSome && f.volumeCol.isSome

/-- A column contains a null cell. -/
def colHasNull (c : Option (List (Option ℚ))) : Bool :=
  (c.getD []).any fun x => x.isNone

/-- Null check over the five raw OHLCV columns. -/
def ohlcvHasNull (f : Frame) : Bool :=
  colHasNull f.openCol || colHasNull f.highCol || colHasNull f.lowCol ||
    colHasNull f.closeCol || colHasNull f.volumeCol

/-- `TechnicalAnalysisEngine._validate_input_dataframe` (lines 93-145):
missing columns, then index dtype, then the `max_period + 10` length check,
then nulls.  Nothing else about the index — ordering and uniqueness of the
timestamps are never inspected. -/
def validateInputDataframe (p : IndicatorParams) (f : Frame) :
    Except PhoenixErr Frame :=
  if !colAllPresent f then .error (.analysisError none)
  else if !f.indexIsDatetime then .error (.analysisError none)
  else if f.index.length < maxPeriodOf p + 10 then .error .insufficientDataError
  else if ohlcvHasNull f then .error (.analysisError none)
  else .ok f

/-- Close column as the plain rationals the indicator calls consume
(validation has excluded nulls on the success path). -/
def closesOf (f : Frame) : List ℚ :=
  (f.closeCol.getD []).map fun o => o.getD 0

/-- Volume column as plain rationals. -/
def volumesOf (f : Frame) : List ℚ :=
  (f.volumeCol.getD []).map fun o => o.getD 0

/-- `_calculate_ema`: adds the `EMA21` column. -/
def addEMA (p : IndicatorParams) (f : Frame) : Frame :=
  { f with ema21 := some (calcEMA p.emaPeriod (closesOf f)) }

/-- `_calculate_rsi`: adds the `RSI14` column. -/
def addRSI (p : IndicatorParams) (f : Frame) : Frame :=
  { f with rsi14 := some (calcRSI p.rsiPeriod (closesOf f)) }

/-- `_calculate_macd`: adds the `MACD`, `MACD_Signal` and `MACD_Histogram`
columns together. -/
def addMACD (p : IndicatorParams) (f : Frame) : Frame :=
  let m := calcMACD p.macdFast p.macdSlow p.macdSig (closesOf f)
  { f with macdLine := some m.1, macdSignalCol := some m.2.1,
           macdHistCol := some m.2.2 }

/-- `_calculate_volume_average`: adds the `Volume_Avg20` column. -/
def addVolAvg (p : IndicatorParams) (f : Frame) : Frame :=
  { f with volAvg20 := some (rollingMean p.volAvgPeriod (volumesOf f)) }

/-- A present column with at least one non-null cell among its last 10. -/
def lastTenHasValue (c : Option (List (Option ℚ))) : Bool :=
  ((c.getD []).drop ((c.getD []).length - 10)).any fun x => x.isSome

/-- `_validate_indicators` (lines 281-313): the six indicator columns must be
present and each must carry at least one valid value in the trailing 10 rows.
(The RSI range check that follows only logs and cannot fail.) -/
def validateIndicators (f : Frame) : Except PhoenixErr Unit :=
  if !(f.ema21.isSome && f.rsi14.isSome && f.macdLine.isSome &&
       f.macdSignalCol.isSome && f.macdHistCol.isSome && f.volAvg20.isSome) then
    .error (.analysisError none)
  else if !lastTenHasValue f.ema21 then .error (.analysisError none)
  else if !lastTenHasValue f.rsi14 then .error (.analysisError none)
  else if !lastTenHasValue f.macdLine then .error (.analysisError none)
  else if !lastTenHasValue f.macdSignalCol then .error (.analysisError none)
  else if !lastTenHasValue f.macdHistCol then .error (.analysisError none)
  else if !lastTenHasValue f.volAvg20 then .error (.analysisError none)
  else .ok ()

/-- The body of `enrich_dataframe` inside its `try` block: validate, compute
the four indicator families in order, validate the result. -/
def enrichBody (p : IndicatorParams) (f : Frame) : Except PhoenixErr Frame :=
  match validateInputDataframe p f with
  | .error e => .error e
  | .ok f0 =>
    let f1 := addVolAvg p (addMACD p (addRSI p (addEMA p f0)))
    match validateIndicators f1 with
    | .error e => .error e
    | .ok _ => .ok f1

/-- `TechnicalAnalysisEngine.enrich_dataframe`: the catch-all handler
(lines 88-91) turns any exception escaping the body into an `AnalysisError`
chaining the original. -/
def enrichDataframe (p : IndicatorParams) (f : Frame) : Except PhoenixErr Frame :=
  match enrichBody p f with
  | .ok r => .ok r
  | .error e => .error (.analysisError (some e))

/-- The six `required_columns` of `TradingSignalsEngine` are present. -/
def signalsColsPresent (f : Frame) : Bool :=
  f.closeCol.isSome && f.volumeCol.isSome && f.ema21.isSome &&
    f.rsi14.isSome && f.macdHistCol.isSome && f.volAvg20.isSome

/-- A null cell among the last two rows of the six required columns
(`recent_data = df[self.required_columns].tail(2)`). -/
def lastTwoHaveNull (f : Frame) : Bool :=
  [f.closeCol, f.volumeCol, f.ema21, f.rsi14, f.macdHistCol, f.volAvg20].any
    fun c => ((c.getD []).drop ((c.getD []).length - 2)).any fun x => x.isNone

/-- `TradingSignalsEngine._validate_input_dataframe` (lines 95-130): at least
two rows, required columns present, no nulls in the last two rows. -/
def validateSignalsInput (f : Frame) : Except PhoenixErr Unit :=
  if f.index.length < 2 then .error .insufficientDataError
  else if !signalsColsPresent f then .error (.analysisError none)
  else if lastTwoHaveNull f then .error (.analysisError none)
  else .ok ()

/-- Row `i` of the enriched frame as the candle record the detector reads. -/
def candleAt (f : Frame) (i : ℕ) : Candle :=
  { close := ((f.closeCol.getD []).getD i none).getD 0
    volume := ((f.volumeCol.getD []).getD i none).getD 0
    ema21 := ((f.ema21.getD []).getD i none).getD 0
    rsi14 := ((f.rsi14.getD []).getD i none).getD 0
    macdHist := ((f.macdHistCol.getD []).getD i none).getD 0
    volAvg20 := ((f.volAvg20.getD []).getD i none).getD 0 }

/-- RSI zone labels of `_get_current_market_conditions`. -/
inductive RsiZone where
  | OVERSOLD
  | OVERBOUGHT
  | NEUTRAL_BEARISH
  | NEUTRAL_BULLISH

/-- The descriptive snapshot built by `_get_current_market_conditions`. -/
structure MarketConditions where
  priceAboveEma : Bool
  rsiZone : RsiZone
  macdPositive : Bool
  volumeHigh : Bool
  volQuotient : ℚ

/-- `_get_current_market_conditions` on the current candle. -/
def marketConditionsOf (c : Candle) : MarketConditions :=
  { priceAboveEma := decide (c.close > c.ema21)
    rsiZone :=
      if c.rsi14 < 30 then RsiZone.OVERSOLD
      else if c.rsi14 > 70 then RsiZone.OVERBOUGHT
      else if 30 ≤ c.rsi14 ∧ c.rsi14 ≤ 50 then RsiZone.NEUTRAL_BEARISH
      else RsiZone.NEUTRAL_BULLISH
    macdPositive := decide (c.macdHist > 0)
    volumeHigh := decide (c.volume / c.volAvg20 > 1)
    volQuotient := c.volume / c.volAvg20 }

/-- The result dictionary assembled by `analyze_signals`, with the conflict
warning surfaced as a diagnostic flag. -/
structure SignalAnalysis where
  signalType : SignalType
  timestamp : ℤ
  currentPrice : ℚ
  bullishDetected : Bool
  bearishDetected : Bool
  conflictWarned : Bool
  market : MarketConditions

/-- The body of `analyze_signals` inside its `try` block (lines 62-88). -/
def analyzeSignalsBody (f : Frame) : Except PhoenixErr SignalAnalysis :=
  match validateSignalsInput f with
  | .error e => .error e
  | .ok _ =>
    let n := f.index.length
    let current := candleAt f (n - 1)
    let previous := candleAt f (n - 2)
    let b := checkBullishSignal previous current
    let r := checkBearishSignal previous current
    let fin := determineFinalSignal b r
    .ok { signalType := fin.1, timestamp := f.index.getD (n - 1) 0,
          currentPrice := current.close, bullishDetected := b,
          bearishDetected := r, conflictWarned := fin.2,
          market := marketConditionsOf current }

/-- `TradingSignalsEngine.analyze_signals` with its catch-all handler
(lines 90-93). -/
def analyzeSignals (f : Frame) : Except PhoenixErr SignalAnalysis :=
  match analyzeSignalsBody f with
  | .ok r => .ok r
  | .error e => .error (.analysisError (some e))

/-- C9: every exception escaping the body of either public entry point is
re-raised as an `AnalysisError` chaining the original, so the caller sees
either a success or an `AnalysisError` with a cause — never a bare
`InsufficientDataError`. -/
theorem catch_all_wraps_every_error (p : IndicatorParams) (f g : Frame) :
    ((∃ r, enrichDataframe p f = Except.ok r) ∨
      (∃ e, enrichDataframe p f =
        Except.error (PhoenixErr.analysisError (some e)))) ∧
    ((∃ r, analyzeSignals g = Except.ok r) ∨
      (∃ e, analyzeSignals g =
        Except.error (PhoenixErr.analysisError (some e)))) := by
  constructor
  · match h : enrichBody p f with
    | .ok r => exact Or.inl ⟨r, by rw [enrichDataframe, h]⟩
    | .error e => exact Or.inr ⟨e, by rw [enrichDataframe, h]⟩
  · match h : analyzeSignalsBody g with
    | .ok r => exact Or.inl ⟨r, by rw [analyzeSignals, h]⟩
    | .error e => exact Or.inr ⟨e, by rw [analyzeSignals, h]⟩

/-- C3 (amended): a series shorter than `max_period + 10` makes the enrich
call fail fatally with no partial result, but the exception reaching the
caller is the catch-all `AnalysisError` chaining the internally raised
`InsufficientDataError`, not a bare `InsufficientDataError`. -/
theorem short_series_fails_wrapped (p : IndicatorParams) (f : Frame)
    (hc : colAllPresent f = true) (hd : f.indexIsDatetime = true)
    (hl : f.index.length < maxPeriodOf p + 10) :
    enrichDataframe p f =
      Except.error (PhoenixErr.analysisError (some PhoenixErr.insufficientDataError)) := by
  simp [enrichDataframe, enrichBody, validateInputDataframe, hc, hd, hl]

/-- A well-formed OHLCV frame of length `max_period + 5 = 40` under the
default configuration — five rows short of the required 45. -/
def df40 : Frame :=
  { indexIsDatetime := true
    index := (List.range 40).map fun n => (n : ℤ)
    openCol := some (List.replicate 40 (some (1 : ℚ)))
    highCol := some (List.replicate 40 (some (1 : ℚ)))
    lowCol := some (List.replicate 40 (some (1 : ℚ)))
    closeCol := some (List.replicate 40 (some (1 : ℚ)))
    volumeCol := some (List.replicate 40 (some (1 : ℚ))) }

/-- C3 counterexample: on the `max_period + 5` series the caller of
`enrich_dataframe` receives `AnalysisError` (with the `InsufficientDataError`
as chained cause), so the claim that `InsufficientDataError` itself reaches
the caller is false. -/
theorem short_series_cex :
    enrichDataframe phoenixDefaults df40 =
      Except.error (PhoenixErr.analysisError (some PhoenixErr.insufficientDataError)) ∧
    enrichDataframe phoenixDefaults df40 ≠
      Except.error PhoenixErr.insufficientDataError := by
  refine ⟨rfl, fun h => ?_⟩
  rw [show enrichDataframe phoenixDefaults df40 =
    Except.error (PhoenixErr.analysisError (some PhoenixErr.insufficientDataError))
    from rfl] at h
  simp at h

theorem short_series_fails_wrapped_witness :
    colAllPresent df40 = true ∧ df40.indexIsDatetime = true ∧
    df40.index.length < maxPeriodOf phoenixDefaults + 10 ∧
    enrichDataframe phoenixDefaults df40 =
      Except.error (PhoenixErr.analysisError (some PhoenixErr.insufficientDataError)) :=
  ⟨rfl, rfl, by decide,
    short_series_fails_wrapped phoenixDefaults df40 rfl rfl (by decide)⟩

/-- C4 (amended): input validation of the enrichment engine checks only
column presence, index dtype, minimum length and nulls; it never inspects
timestamp ordering or uniqueness, so any frame passing those four checks is
accepted however its index is ordered. -/
theorem validation_ignores_index_order (p : IndicatorParams) (f : Frame)
    (hc : colAllPresent f = true) (hd : f.indexIsDatetime = true)
    (hl : maxPeriodOf p + 10 ≤ f.index.length) (hn : ohlcvHasNull f = false) :
    validateInputDataframe p f = Except.ok f := by
  simp [validateInputDataframe, hc, hd, hn, Nat.not_lt.mpr hl]

/-- Alternating close prices so every indicator settles to valid values. -/
def altCloses : List (Option ℚ) :=
  (List.range 45).map fun i => some (if i % 2 = 0 then 1 else 2)

/-- A 45-row frame whose datetime index carries a duplicated timestamp
(hence it is also not strictly increasing), with all other preconditions
satisfied. -/
def dfDup : Frame :=
  { indexIsDatetime := true
    index := 0 :: 0 :: ((List.range 43).map fun n => ((n : ℤ) + 1))
    openCol := some (List.replicate 45 (some (1 : ℚ)))
    highCol := some (List.replicate 45 (some (1 : ℚ)))
    lowCol := some (List.replicate 45 (some (1 : ℚ)))
    closeCol := some altCloses
    volumeCol := some (List.replicate 45 (some (1 : ℚ))) }

/-- C4 counterexample: a series with a duplicate (non-increasing) timestamp
index is not rejected — the enrich call succeeds and returns an enriched
frame, contradicting the claim that such input fails fatally. -/
theorem duplicate_timestamps_accepted_cex :
    ¬ dfDup.index.Nodup ∧ dfDup.indexIsDatetime = true ∧
    (enrichDataframe phoenixDefaults dfDup).isOk = true :=
  ⟨by decide, rfl, rfl⟩

theorem validation_ignores_index_order_witness :
    colAllPresent dfDup = true ∧ dfDup.indexIsDatetime = true ∧
    maxPeriodOf phoenixDefaults + 10 ≤ dfDup.index.length ∧
    ohlcvHasNull dfDup = false ∧
    validateInputDataframe phoenixDefaults dfDup = Except.ok dfDup :=
  ⟨rfl, rfl, by decide, rfl,
    validation_ignores_index_order phoenixDefaults dfDup rfl rfl (by decide) rfl⟩

lemma emaRec_length (a : ℚ) (xs : List ℚ) :
    ∀ prev, (emaRec a prev xs).length = xs.length := by
  induction xs with
  | nil => intro prev; rfl
  | cons c cs ih => intro prev; simp [emaRec, ih]

lemma emaRec_getElem_zero (a prev : ℚ) (xs : List ℚ) :
    (emaRec a prev xs)[0]? = xs[0]?.map (emaStep a prev) := by
  cases xs <;> simp [emaRec]

lemma emaRec_getElem_succ (a : ℚ) (xs : List ℚ) :
    ∀ (prev : ℚ) (k : ℕ),
      (emaRec a prev xs)[k + 1]? =
        (emaRec a prev xs)[k]?.bind fun v => xs[k + 1]?.map fun c => emaStep a v c := by
  induction xs with
  | nil => intro prev k; simp [emaRec]
  | cons c cs ih =>
    intro prev k
    cases k with
    | zero => simp [emaRec, emaRec_getElem_zero]
    | succ k => simpa [emaRec] using ih (emaStep a prev c) k

lemma seededSmooth_not_short (a : ℚ) (p : ℕ) (xs : List ℚ) (hp : 0 < p)
    (hlen : p ≤ xs.length) :
    seededSmooth a p xs =
      List.replicate (p - 1) none ++
        some (seedOf p xs) :: (emaRec a (seedOf p xs) (xs.drop p)).map some := by
  rw [seededSmooth, if_neg]
  rintro (h | h) <;> omega

lemma seededSmooth_getElem_lt (a : ℚ) (p : ℕ) (xs : List ℚ) (i : ℕ)
    (h : i + 1 < p) (hlen : p ≤ xs.length) :
    (seededSmooth a p xs)[i]? = some none := by
  rw [seededSmooth_not_short a p xs (by omega) hlen, List.getElem?_append,
    if_pos (by simp; omega), List.getElem?_replicate, if_pos (by omega)]

lemma seededSmooth_getElem_seed (a : ℚ) (p : ℕ) (xs : List ℚ) (hp : 0 < p)
    (hlen : p ≤ xs.length) :
    (seededSmooth a p xs)[p - 1]? = some (some (seedOf p xs)) := by
  rw [seededSmooth_not_short a p xs hp hlen,
    List.getElem?_append_right (by simp)]
  simp

lemma seededSmooth_getElem_ge (a : ℚ) (p : ℕ) (xs : List ℚ) (i : ℕ)
    (hp : 0 < p) (hlen : p ≤ xs.length) (hi : p ≤ i) :
    (seededSmooth a p xs)[i]? =
      ((emaRec a (seedOf p xs) (xs.drop p)).map some)[i - p]? := by
  rw [seededSmooth_not_short a p xs hp hlen,
    List.getElem?_append_right (by simp; omega)]
  simp only [List.length_replicate]
  rw [show i - (p - 1) = (i - p) + 1 from by omega, List.getElem?_cons_succ]

lemma emaFromSpec_seed (p : ℕ) (xs : List ℚ) (hp : 0 < p)
    (hlen : p ≤ xs.length) :
    emaFromSpec p xs (p - 1) = some (seedOf p xs) := by
  match p, hp with
  | 1, _ =>
    show emaFromSpec 1 xs 0 = some (seedOf 1 xs)
    rw [emaFromSpec, if_pos ⟨rfl, hlen⟩]
  | q + 2, _ =>
    show emaFromSpec (q + 2) xs (q + 1) = some (seedOf (q + 2) xs)
    rw [emaFromSpec, if_neg (by omega), if_neg (by omega), if_pos (by omega)]

lemma emaFromSpec_tail (q : ℕ) (xs : List ℚ) (hq : q + 1 ≤ xs.length) :
    ∀ k, q + 1 + k < xs.length →
      emaFromSpec (q + 1) xs (q + 1 + k) =
        (emaRec (alphaOf (q + 1)) (seedOf (q + 1) xs) (xs.drop (q + 1)))[k]? := by
  intro k
  induction k with
  | zero =>
    intro hk
    have hseed : emaFromSpec (q + 1) xs q = some (seedOf (q + 1) xs) :=
      emaFromSpec_seed (q + 1) xs (by omega) hq
    have hstep : emaFromSpec (q + 1) xs (q + 1) =
        (emaFromSpec (q + 1) xs q).map (fun prev =>
          emaStep (alphaOf (q + 1)) prev (xs.getD (q + 1) 0)) := by
      rw [emaFromSpec, if_neg (by omega), if_neg (by omega), if_neg (by omega)]
    rw [show q + 1 + 0 = q + 1 from rfl, hstep, hseed, emaRec_getElem_zero,
      List.getElem?_drop,
      List.getElem?_eq_getElem (by omega : q + 1 + 0 < xs.length)]
    simp [List.getD_eq_getElem?_getD,
      List.getElem?_eq_getElem (by omega : q + 1 < xs.length)]
  | succ k ih =>
    intro hk
    have hk0 : q + 1 + k < xs.length := by omega
    rw [show q + 1 + (k + 1) = (q + 1 + k) + 1 from by omega,
      show emaFromSpec (q + 1) xs ((q + 1 + k) + 1) =
        (emaFromSpec (q + 1) xs (q + 1 + k)).map (fun prev =>
          emaStep (alphaOf (q + 1)) prev (xs.getD (q + 1 + k + 1) 0)) from by
        rw [emaFromSpec, if_neg (by omega), if_neg (by omega), if_neg (by omega)]]
    rw [ih hk0, emaRec_getElem_succ, List.getElem?_drop,
      List.getElem?_eq_getElem (by omega : q + 1 + (k + 1) < xs.length)]
    cases h : (emaRec (alphaOf (q + 1)) (seedOf (q + 1) xs) (xs.drop (q + 1)))[k]? with
    | none => rfl
    | some v =>
      simp [List.getD_eq_getElem?_getD,
        List.getElem?_eq_getElem (by omega : q + 1 + k + 1 < xs.length),
        show q + 1 + (k + 1) = q + 1 + k + 1 from by omega]

/-- C7: the EMA column computed by the pipeline agrees, index by index, with
the specification recurrence `emaFromSpec`: absent below `period - 1`, the
simple mean of the first `period` closes at `period - 1`, and
`alpha * close[i] + (1 - alpha) * ema[i-1]` with `alpha = 2/(period+1)` for
every later index. -/
theorem ema_column_matches_spec (p : ℕ) (cs : List ℚ) (i : ℕ)
    (hp : 0 < p) (hlen : p ≤ cs.length) (hi : i < cs.length) :
    (calcEMA p cs)[i]? = some (emaFromSpec p cs i) := by
  rcases lt_trichotomy (i + 1) p with h | h | h
  · rw [calcEMA, seededSmooth_getElem_lt (alphaOf p) p cs i h hlen]
    cases i with
    | zero =>
      rw [emaFromSpec, if_neg]
      rintro ⟨h1, _⟩
      omega
    | succ j =>
      rw [emaFromSpec, if_neg (by omega), if_pos (by omega)]
  · rw [calcEMA, show i = p - 1 from by omega,
      seededSmooth_getElem_seed (alphaOf p) p cs hp hlen,
      emaFromSpec_seed p cs hp hlen]
  · obtain ⟨q, rfl⟩ : ∃ q, p = q + 1 := ⟨p - 1, by omega⟩
    obtain ⟨k, rfl⟩ : ∃ k, i = q + 1 + k := ⟨i - (q + 1), by omega⟩
    rw [calcEMA, seededSmooth_getElem_ge (alphaOf (q + 1)) (q + 1) cs _ hp hlen (by omega),
      List.getElem?_map, show q + 1 + k - (q + 1) = k from by omega,
      emaFromSpec_tail q cs hlen k hi]
    have hkr : k < (emaRec (alphaOf (q + 1)) (seedOf (q + 1) cs) (cs.drop (q + 1))).length := by
      rw [emaRec_length]
      simp only [List.length_drop]
      omega
    rw [List.getElem?_eq_getElem hkr]
    rfl

/-- Concrete closes for the EMA witness. -/
def emaWitnessCloses : List ℚ := [1, 2, 3, 4, 5]

theorem ema_column_matches_spec_witness :
    0 < 3 ∧ 3 ≤ emaWitnessCloses.length ∧ 4 < emaWitnessCloses.length ∧
    (calcEMA 3 emaWitnessCloses)[4]? = some (emaFromSpec 3 emaWitnessCloses 4) :=
  ⟨by decide, by decide, by decide,
    ema_column_matches_spec 3 emaWitnessCloses 4 (by decide) (by decide) (by decide)⟩

/-- The object store the enrich call operates in: mutable DataFrame objects
addressed by references, with an allocation counter.  This makes the pandas
in-place mutations (`append=True`, `inplace=True`) explicit so aliasing with
the caller's input can be reasoned about. -/
structure Heap where
  size : ℕ
  mem : ℕ → Option Frame

/-- Dereference a frame object. -/
def heapRead (h : Heap) (r : ℕ) : Option Frame := h.mem r

/-- Mutate the frame object behind a reference in place. -/
def heapWrite (h : Heap) (r : ℕ) (v : Frame) : Heap :=
  { size := h.size, mem := fun x => if x = r then some v else h.mem x }

/-- Allocate a fresh frame object (`df.copy()`), returning its reference. -/
def heapAlloc (h : Heap) (v : Frame) : Heap × ℕ :=
  ({ size := h.size + 1, mem := fun x => if x = h.size then some v else h.mem x },
    h.size)

/-- `enrich_dataframe` as a program over the object store: it reads the
caller's frame, copies it into a fresh object, and from then on every
mutation (the four indicator writers) targets only the copy; the result on
success is the copy's reference. -/
def enrichProg (p : IndicatorParams) (h : Heap) (r : ℕ) :
    Heap × Except PhoenixErr ℕ :=
  match heapRead h r with
  | none => (h, .error (.analysisError none))
  | some df =>
    let al := heapAlloc h df
    match validateInputDataframe p df with
    | .error e => (al.1, .error (.analysisError (some e)))
    | .ok _ =>
      let h1 := heapWrite al.1 al.2 (addEMA p df)
      let h2 := heapWrite h1 al.2 (addRSI p (addEMA p df))
      let h3 := heapWrite h2 al.2 (addMACD p (addRSI p (addEMA p df)))
      let h4 := heapWrite h3 al.2 (addVolAvg p (addMACD p (addRSI p (addEMA p df))))
      match validateIndicators (addVolAvg p (addMACD p (addRSI p (addEMA p df)))) with
      | .error e => (h4, .error (.analysisError (some e)))
      | .ok _ => (h4, .ok al.2)

/-- C8: the enrich call never mutates the caller's input frame — after the
call the input reference still holds exactly the frame it held before, on
the success path and on every error path alike — and the reference returned
on success is never the input's, only the separately allocated copy. -/
theorem enrich_leaves_input_unchanged (p : IndicatorParams) (h : Heap) (r : ℕ)
    (df : Frame) (hr : heapRead h r = some df) (hv : r < h.size) :
    heapRead (enrichProg p h r).1 r = some df ∧
    (enrichProg p h r).2 ≠ Except.ok r := by
  have hne : r ≠ h.size := by omega
  simp only [enrichProg, hr]
  cases hval : validateInputDataframe p df with
  | error e =>
    refine ⟨?_, by simp⟩
    simpa [heapRead, heapAlloc, hne] using hr
  | ok f0 =>
    cases hind : validateIndicators
        (addVolAvg p (addMACD p (addRSI p (addEMA p df)))) with
    | error e =>
      refine ⟨?_, by simp⟩
      simpa [heapRead, heapWrite, heapAlloc, hne] using hr
    | ok u =>
      refine ⟨?_, ?_⟩
      · simpa [heapRead, heapWrite, heapAlloc, hne] using hr
      · simp only [heapAlloc, ne_eq, Except.ok.injEq]
        omega

/-- A one-row input frame for the aliasing witness. -/
def frameTiny : Frame :=
  { indexIsDatetime := true
    index := [0]
    openCol := some [some (1 : ℚ)]
    highCol := some [some (1 : ℚ)]
    lowCol := some [some (1 : ℚ)]
    closeCol := some [some (1 : ℚ)]
    volumeCol := some [some (1 : ℚ)] }

/-- A heap holding exactly the witness frame at reference 0. -/
def heapTiny : Heap := (heapAlloc { size := 0, mem := fun _ => none } frameTiny).1

theorem enrich_leaves_input_unchanged_witness :
    heapRead heapTiny 0 = some frameTiny ∧ 0 < heapTiny.size ∧
    heapRead (enrichProg phoenixDefaults heapTiny 0).1 0 = some frameTiny ∧
    (enrichProg phoenixDefaults heapTiny 0).2 ≠ Except.ok 0 :=
  ⟨rfl, by decide,
    (enrich_leaves_input_unchanged phoenixDefaults heapTiny 0 frameTiny rfl (by decide)).1,
    (enrich_leaves_input_unchanged phoenixDefaults heapTiny 0 frameTiny rfl (by decide)).2⟩
